import Mathlib

/-!
Shallow embedding of the reliable-delivery pipeline of
`agents-whatsapp-rust` (agent-gateway handlers and the shared dead-letter
queue manager), together with theorems settling the frozen claims about it.

Conventions of the embedding:
* timestamps (`DateTime<Utc>`) are natural numbers counting milliseconds;
  within a single operation every `Utc::now()` call is modelled as the one
  instant `now` passed explicitly as an argument;
* generated UUIDs are passed in as explicit `String` arguments (freshness
  is a property of the generator, outside the embedding);
* MongoDB collections are association lists of documents; `find_one` /
  `update_one` by `_id` act on the first matching document, `delete_many`
  filters; a BSON `$lte` comparison against a date does not match a `null`
  field, which is why a missing `next_retry_at` never matches the sweep
  filter;
* the `f64` backoff arithmetic (`(base as f64) * 2.0.powi (retry_count as i32)`,
  capped by `min 300000.0`, truncated to `u64`) is modelled on `Nat` with
  the `u32` to `i32` cast made explicit. For `r % 2^32` below `2^31` the
  cast is value-preserving and the result is `min (100 * 2 ^ r) 300000`:
  below the cap the float value `100 * 2^r` is exactly representable, and
  above the cap (including `powi` overflow to infinity) the `min` returns
  the exact cap. For `r % 2^32` in `[2^31, 2^32)` the cast wraps to the
  negative exponent `r - 2^32`, so the float value is `100 / 2^(2^32 - r)`
  (exactly representable down to the subnormal range, and 0 beyond it) and
  the `u64` truncation agrees with the flooring `Nat` division in every
  case, the `min` against the cap never binding there.
-/

/-- MessageType from shared/src/models.rs. -/
inductive MessageType
  | text
  | image
  | video
  | audio
  | document
  | location
  | system
deriving DecidableEq, Repr, Inhabited

/-- MessageStatus from shared/src/models.rs. -/
inductive MessageStatus
  | sent
  | delivered
  | read
deriving DecidableEq, Repr, Inhabited

/-- DLQErrorType from shared/src/models.rs: the closed error taxonomy. -/
inductive DLQErrorType
  | brokerPublishFailed
  | storageFailed
  | validationFailed
  | timeout
  | serviceUnavailable
  | networkError
  | unknown
deriving DecidableEq, Repr, Inhabited

/-- DLQStatus from shared/src/models.rs: the entry state machine labels. -/
inductive DLQStatus
  | pending
  | retrying
  | failed
  | resolved
deriving DecidableEq, Repr, Inhabited

/-- StoredMessage from shared/src/models.rs (timestamps as Nat ms). -/
structure StoredMessage where
  message_id : Option String
  idempotency_key : String
  conversation_id : String
  sequence_number : Nat
  sender_id : String
  receiver_id : String
  message_type : MessageType
  content : String
  media_url : Option String
  reply_to_message_id : Option String
  timestamp : Nat
  status : MessageStatus
  created_at : Nat
deriving DecidableEq, Repr, Inhabited

/-- DeadLetterQueueEntry from shared/src/models.rs. -/
structure DeadLetterQueueEntry where
  id : Option String
  message : StoredMessage
  error : String
  error_type : DLQErrorType
  retry_count : Nat
  max_retries : Nat
  next_retry_at : Option Nat
  created_at : Nat
  last_retry_at : Option Nat
  status : DLQStatus
  resolved_at : Option Nat
  resolved_reason : Option String
deriving DecidableEq, Repr, Inhabited

/-- A document of the `dead_letter_queue` collection: the serialized entry
plus the `expires_at` field that `DeadLetterQueue::add` inserts into the
document beside the entry fields (dlq.rs lines 66-73). -/
structure DLQDoc where
  entry : DeadLetterQueueEntry
  expires_at : Nat
deriving DecidableEq, Repr, Inhabited

/-- Configuration fields of the DeadLetterQueue manager (dlq.rs lines 10-16);
the database handle is replaced by explicit state passing, and the `f64`
multiplier 2.0 is the natural number 2 (see the module docstring). -/
structure DeadLetterQueue where
  max_retries : Nat
  retry_backoff_base_ms : Nat
  retry_backoff_multiplier : Nat
  dlq_ttl_days : Nat
deriving DecidableEq, Repr, Inhabited

/-- DeadLetterQueue::new (dlq.rs lines 19-27). -/
def DeadLetterQueue.new : DeadLetterQueue :=
  { max_retries := 5
    retry_backoff_base_ms := 100
    retry_backoff_multiplier := 2
    dlq_ttl_days := 7 }

/-- Milliseconds in one day, for `chrono::Duration::days`. -/
def msPerDay : Nat := 86400000

/-- DeadLetterQueue::calculate_backoff (dlq.rs lines 215-221): base times
multiplier to the power `retry_count as i32`, capped at 300000 ms and
truncated to an integer. The u32 argument (here `retry_count % 2 ^ 32`)
is cast with `as i32`, so values of at least `2^31` wrap to the negative
exponent `retry_count - 2^32` and the truncated result is the flooring
quotient of the base by the multiplier power (see the module docstring
for why the `Nat` forms agree with the `f64` computation exactly). -/
def DeadLetterQueue.calculate_backoff (q : DeadLetterQueue) (retry_count : Nat) : Nat :=
  if retry_count % 2 ^ 32 < 2 ^ 31 then
    min (q.retry_backoff_base_ms
      * q.retry_backoff_multiplier ^ (retry_count % 2 ^ 32)) 300000
  else
    min (q.retry_backoff_base_ms
      / q.retry_backoff_multiplier ^ (2 ^ 32 - retry_count % 2 ^ 32)) 300000

/-- The DeadLetterQueueEntry built inside DeadLetterQueue::add
(dlq.rs lines 37-63). -/
def DeadLetterQueue.mkEntry (q : DeadLetterQueue) (message : StoredMessage)
    (error : String) (error_type : DLQErrorType) (retry_count : Nat)
    (now : Nat) (dlq_id : String) : DeadLetterQueueEntry :=
  { id := some dlq_id
    message := message
    error := error
    error_type := error_type
    retry_count := retry_count
    max_retries := q.max_retries
    next_retry_at :=
      if retry_count < q.max_retries then
        some (now + q.calculate_backoff retry_count)
      else
        none
    created_at := now
    last_retry_at := none
    status := if retry_count < q.max_retries then DLQStatus.pending else DLQStatus.failed
    resolved_at := none
    resolved_reason := none }

/-- DeadLetterQueue::add (dlq.rs lines 30-81): build the entry, attach
`expires_at = now + ttl days`, insert the document, return the fresh id. -/
def DeadLetterQueue.add (q : DeadLetterQueue) (store : List DLQDoc)
    (message : StoredMessage) (error : String) (error_type : DLQErrorType)
    (retry_count : Nat) (now : Nat) (dlq_id : String) :
    List DLQDoc × String :=
  (store ++ [{ entry := q.mkEntry message error error_type retry_count now dlq_id
               expires_at := now + q.dlq_ttl_days * msPerDay }],
   dlq_id)

/-- The sweep filter of DeadLetterQueue::retry_pending_messages
(dlq.rs lines 87-91): status pending, `next_retry_at` a date at most `now`
(a null `next_retry_at` does not satisfy the BSON `$lte`), and
`retry_count` strictly below `max_retries`. -/
def dlqDue (q : DeadLetterQueue) (now : Nat) (d : DLQDoc) : Bool :=
  d.entry.status == DLQStatus.pending
    && (match d.entry.next_retry_at with
        | some t => decide (t ≤ now)
        | none => false)
    && decide (d.entry.retry_count < q.max_retries)

/-- The per-document update of the sweep (dlq.rs lines 107-118):
set status to retrying and `last_retry_at` to now. -/
def dlqClaim (now : Nat) (d : DLQDoc) : DLQDoc :=
  { d with entry := { d.entry with status := DLQStatus.retrying
                                   last_retry_at := some now } }

/-- DeadLetterQueue::retry_pending_messages (dlq.rs lines 84-133): walk the
documents matched by the sweep filter, updating each matched document in
place (update_one by its unique `_id`) and counting it. -/
def DeadLetterQueue.retry_pending_messages (q : DeadLetterQueue) :
    List DLQDoc → Nat → List DLQDoc × Nat
  | [], _ => ([], 0)
  | d :: rest, now =>
    let p := DeadLetterQueue.retry_pending_messages q rest now
    if dlqDue q now d then
      (dlqClaim now d :: p.1, p.2 + 1)
    else
      (d :: p.1, p.2)

/-- Insertion into a list kept sorted by `created_at` descending. -/
def insertByCreatedDesc (e : DeadLetterQueueEntry) :
    List DeadLetterQueueEntry → List DeadLetterQueueEntry
  | [] => [e]
  | x :: xs =>
    if x.created_at < e.created_at then
      e :: x :: xs
    else
      x :: insertByCreatedDesc e xs

/-- Sort by `created_at` descending (the `sort created_at: -1` option of
DeadLetterQueue::get_entries_by_status, dlq.rs line 157). -/
def sortByCreatedDesc : List DeadLetterQueueEntry → List DeadLetterQueueEntry
  | [] => []
  | x :: xs => insertByCreatedDesc x (sortByCreatedDesc xs)

/-- DeadLetterQueue::get_entries_by_status (dlq.rs lines 136-172): filter by
status, order by `created_at` descending, apply the optional limit, return
the deserialized entries (the extra `expires_at` document field is dropped
by deserialization into DeadLetterQueueEntry). -/
def DeadLetterQueue.get_entries_by_status (store : List DLQDoc)
    (status : DLQStatus) (limit : Option Nat) : List DeadLetterQueueEntry :=
  let filtered := (store.filter (fun d => d.entry.status == status)).map (·.entry)
  let sorted := sortByCreatedDesc filtered
  match limit with
  | some l => sorted.take l
  | none => sorted

/-- DeadLetterQueue::mark_resolved (dlq.rs lines 175-194): update_one by
`_id`, setting status resolved, `resolved_at` now, `resolved_reason`. -/
def DeadLetterQueue.mark_resolved :
    List DLQDoc → String → Option String → Nat → List DLQDoc
  | [], _, _, _ => []
  | d :: rest, dlq_id, reason, now =>
    if d.entry.id == some dlq_id then
      { d with entry := { d.entry with status := DLQStatus.resolved
                                       resolved_at := some now
                                       resolved_reason := reason } } :: rest
    else
      d :: DeadLetterQueue.mark_resolved rest dlq_id reason now

/-- DeadLetterQueue::cleanup_expired (dlq.rs lines 197-212): delete_many of
the documents whose `expires_at` is strictly before now (the filter is the
BSON `$lt`), returning the number deleted. -/
def DeadLetterQueue.cleanup_expired (store : List DLQDoc) (now : Nat) :
    List DLQDoc × Nat :=
  (store.filter (fun d => !decide (d.expires_at < now)),
   (store.filter (fun d => decide (d.expires_at < now))).length)

/-- DLQStatistics from dlq.rs lines 250-256. -/
structure DLQStatistics where
  total : Nat
  pending : Nat
  failed : Nat
  retrying : Nat
deriving DecidableEq, Repr, Inhabited

/-- DeadLetterQueue::get_statistics (dlq.rs lines 224-247): aggregate
counts; a pure read of the collection. -/
def DeadLetterQueue.get_statistics (store : List DLQDoc) : DLQStatistics :=
  { total := store.length
    pending := (store.filter (fun d => d.entry.status == DLQStatus.pending)).length
    failed := (store.filter (fun d => d.entry.status == DLQStatus.failed)).length
    retrying := (store.filter (fun d => d.entry.status == DLQStatus.retrying)).length }

/-- The JSON accessors of the inbound event data that handlers.rs reads
(`data.get(...).and_then(as_str / as_u64)`); a `none` field models the key
being absent or of the wrong JSON type. The payload is carried whole: the
outbound event embeds this same value. -/
structure EventData where
  idempotency_key : Option String
  conversation_id : Option String
  message_id : Option String
  sequence_number : Option Nat
  sender_id : Option String
  receiver_id : Option String
  content : Option String
deriving DecidableEq, Repr, Inhabited

/-- The inbound CloudEvent as handlers.rs consumes it: its type attribute
and its JSON data (`none` models missing or non-JSON data). -/
structure InEvent where
  ty : String
  data : Option EventData
deriving DecidableEq, Repr, Inhabited

/-- A document of the `conversations` collection as read by handlers.rs
lines 57-76: its `_id` and its `agent_id` field, where `none` models the
field being absent or not a string (`get_str` returning Err). -/
structure ConversationDoc where
  id : String
  agent_id : Option String
deriving DecidableEq, Repr, Inhabited

/-- The state visible to handle_event: the `idempotency_keys` collection
(the set of `_id` values present), the `conversations` collection, and the
configured broker URL (config.rs). -/
structure GatewayState where
  idempotency_keys : List String
  conversations : List ConversationDoc
  broker_url : String
deriving DecidableEq, Repr, Inhabited

/-- The CloudEvent built at handlers.rs lines 79-87: id, source, type and
JSON data attributes. -/
structure OutboundEvent where
  id : String
  source : String
  ty : String
  data : EventData
deriving DecidableEq, Repr, Inhabited

/-- Result of handle_event: the Ok("OK") acknowledgment or a Validation
error (the only error constructors reachable in the embedded paths). -/
inductive HandlerResult
  | okAck
  | validationError (msg : String)
deriving DecidableEq, Repr, Inhabited

/-- The listen address from message-processor main.rs ("0.0.0.0:8080"):
the address this service itself serves on. -/
def service_listen_addr : String := "0.0.0.0:8080"

/-- find_one on the `conversations` collection by `_id`
(handlers.rs lines 61-63). -/
def find_conversation (convs : List ConversationDoc) (cid : String) :
    Option ConversationDoc :=
  convs.find? (fun c => c.id == cid)

/-- The routing resolution of handlers.rs lines 63-76: the stored agent_id
of an existing conversation, with "agent-bruno" as the fallback both for a
missing/malformed field and for an absent conversation. A total pure
function of the conversations collection. -/
def resolve_agent (convs : List ConversationDoc) (cid : String) : String :=
  match find_conversation convs cid with
  | some conv => conv.agent_id.getD "agent-bruno"
  | none => "agent-bruno"

/-- handle_event (handlers.rs lines 10-111). Returns the gateway state
after the call, the HTTP-level result, and the dispatched background
publish task, when one was spawned, as the built outbound event together
with the conversation id it captured. The fresh UUID of the outbound event
is the explicit argument `fresh_id`. The handler performs two reads
(find_one on `idempotency_keys`, find_one on `conversations`) and no
write, so the state is threaded through unchanged on every path. -/
def handle_event (st : GatewayState) (ev : InEvent) (fresh_id : String) :
    GatewayState × HandlerResult × Option (OutboundEvent × String) :=
  if ev.ty ≠ "messaging.message.received" then
    (st, HandlerResult.okAck, none)
  else
    match ev.data with
    | none => (st, HandlerResult.validationError "Missing event data", none)
    | some d =>
      match d.idempotency_key with
      | none => (st, HandlerResult.validationError "Missing idempotency_key", none)
      | some key =>
        if st.idempotency_keys.contains key then
          (st, HandlerResult.okAck, none)
        else
          match d.conversation_id with
          | none => (st, HandlerResult.validationError "Missing conversation_id", none)
          | some cid =>
            let agent_event : OutboundEvent :=
              { id := fresh_id
                source := st.broker_url
                ty := "agent.message"
                data := d }
            (st, HandlerResult.okAck, some (agent_event, cid))

/-- The StoredMessage built for the DLQ inside
publish_agent_event_with_retry (handlers.rs lines 125-161), with its
defaulted fields. -/
def message_for_dlq (d : EventData) (conversation_id : String) (now : Nat) :
    StoredMessage :=
  { message_id := d.message_id
    idempotency_key := d.idempotency_key.getD ""
    conversation_id := conversation_id
    sequence_number := d.sequence_number.getD 0
    sender_id := d.sender_id.getD ""
    receiver_id := d.receiver_id.getD ""
    message_type := MessageType.text
    content := d.content.getD ""
    media_url := none
    reply_to_message_id := none
    timestamp := now
    status := MessageStatus.sent
    created_at := now }

/-- Outcome of one POST attempt against the broker
(handlers.rs line 171): transport success with a 2xx status, transport
success with a non-success status (carrying the display text of the
status), or a transport error (carrying the display text of the error). -/
inductive AttemptOutcome
  | success
  | httpError (statusText : String)
  | transportError (errText : String)
deriving DecidableEq, Repr, Inhabited

/-- Result of the publisher: Ok(()) or the Internal error it terminates
with after exhaustion. -/
inductive PublishOutcome
  | ok
  | deliveryFailed (msg : String)
deriving DecidableEq, Repr, Inhabited

/-- The retry loop of publish_agent_event_with_retry
(handlers.rs lines 163-217), driven by the finite trace of attempt
outcomes the broker produces: on success return Ok; on failure, if
`max_retries ≤ retry_count` then add the message to the DLQ
(DeadLetterQueue::new) with the current retry_count and terminate with the
failure, else increment retry_count, double the (capped) backoff and try
the next outcome. `none` means the trace ended with the loop still
running (the sleep durations and the random jitter affect only timing,
never the result, and are not modelled). -/
def publish_loop (msg : StoredMessage) (store : List DLQDoc) (now : Nat)
    (dlq_id : String) :
    Nat → Nat → List AttemptOutcome → Option (PublishOutcome × List DLQDoc)
  | _, _, [] => none
  | retry_count, backoff_ms, o :: rest =>
    match o with
    | AttemptOutcome.success => some (PublishOutcome.ok, store)
    | AttemptOutcome.httpError statusText =>
      let error_msg := "Broker returned error status: " ++ statusText
      if 5 ≤ retry_count then
        some (PublishOutcome.deliveryFailed error_msg,
              (DeadLetterQueue.new.add store msg error_msg
                DLQErrorType.brokerPublishFailed retry_count now dlq_id).1)
      else
        publish_loop msg store now dlq_id (retry_count + 1)
          (min (backoff_ms * 2) 30000) rest
    | AttemptOutcome.transportError errText =>
      let error_msg := "Failed to publish to broker: " ++ errText
      if 5 ≤ retry_count then
        some (PublishOutcome.deliveryFailed error_msg,
              (DeadLetterQueue.new.add store msg error_msg
                DLQErrorType.brokerPublishFailed retry_count now dlq_id).1)
      else
        publish_loop msg store now dlq_id (retry_count + 1)
          (min (backoff_ms * 2) 30000) rest

/-- publish_agent_event_with_retry (handlers.rs lines 113-218): the loop
started with retry_count 0 and backoff 100 ms, on the message built by
message_for_dlq. -/
def publish_agent_event_with_retry (d : EventData) (conversation_id : String)
    (store : List DLQDoc) (now : Nat) (dlq_id : String)
    (outcomes : List AttemptOutcome) : Option (PublishOutcome × List DLQDoc) :=
  publish_loop (message_for_dlq d conversation_id now) store now dlq_id 0 100 outcomes

/-- The per-entry invariant of the claimed DeadLetterEntry lifecycle, as a
state predicate: retry_count bounded by max_retries, status in the closed
set, Failed exactly when retries are exhausted and the entry has not been
resolved, and `next_retry_at` present exactly when the entry was created
with retries remaining. -/
def dlqEntryInv (e : DeadLetterQueueEntry) : Prop :=
  e.retry_count ≤ e.max_retries
  ∧ (e.status = DLQStatus.pending ∨ e.status = DLQStatus.retrying
      ∨ e.status = DLQStatus.failed ∨ e.status = DLQStatus.resolved)
  ∧ (e.status = DLQStatus.failed ↔
      (e.max_retries ≤ e.retry_count ∧ e.status ≠ DLQStatus.resolved))
  ∧ (e.next_retry_at.isSome ↔ e.retry_count < e.max_retries)

/-- The collection states reachable from empty through the mutating store
operations, with `add` restricted to calls whose retry_count argument does
not exceed the configured maximum (the only calls the pipeline itself
performs). -/
inductive DLQReachable (q : DeadLetterQueue) : List DLQDoc → Prop
  | nil : DLQReachable q []
  | add (s : List DLQDoc) (msg : StoredMessage) (err : String)
      (et : DLQErrorType) (rc now : Nat) (i : String) :
      DLQReachable q s → rc ≤ q.max_retries →
      DLQReachable q (q.add s msg err et rc now i).1
  | retry (s : List DLQDoc) (now : Nat) :
      DLQReachable q s → DLQReachable q (q.retry_pending_messages s now).1
  | resolve (s : List DLQDoc) (i : String) (reason : Option String) (now : Nat) :
      DLQReachable q s → DLQReachable q (DeadLetterQueue.mark_resolved s i reason now)

/-- A sample stored message used by concrete witnesses. -/
def msg0 : StoredMessage :=
  { message_id := none
    idempotency_key := "k1"
    conversation_id := "c1"
    sequence_number := 1
    sender_id := "s1"
    receiver_id := "r1"
    message_type := MessageType.text
    content := "hi"
    media_url := none
    reply_to_message_id := none
    timestamp := 0
    status := MessageStatus.sent
    created_at := 0 }

/-- A sample inbound event payload used by concrete witnesses. -/
def data0 : EventData :=
  { idempotency_key := some "k1"
    conversation_id := some "c1"
    message_id := some "m1"
    sequence_number := some 1
    sender_id := some "s1"
    receiver_id := some "r1"
    content := some "hi" }

/-- A sample inbound event of the processed type. -/
def ev0 : InEvent :=
  { ty := "messaging.message.received", data := some data0 }

/-- A gateway state with no idempotency record and no conversation,
carrying the default broker URL from config.rs. -/
def st0 : GatewayState :=
  { idempotency_keys := []
    conversations := []
    broker_url := "http://default-broker.homelab-services.svc.cluster.local" }

/-- A gateway state in which the key of `data0` already has an
idempotency record. -/
def st1 : GatewayState :=
  { idempotency_keys := ["k1"]
    conversations := []
    broker_url := "http://default-broker.homelab-services.svc.cluster.local" }

/-- A conversations collection holding one conversation with a stored
agent_id. -/
def convs1 : List ConversationDoc :=
  [{ id := "c1", agent_id := some "agent-x" }]

/-- A pending document created at time 0 (due from time 100 on). -/
def dueDoc : DLQDoc :=
  { entry := DeadLetterQueue.new.mkEntry msg0 "e" DLQErrorType.unknown 0 0 "a"
    expires_at := 604800000 }

/-- A pending document created at time 1000 (not due before 1100). -/
def lateDoc : DLQDoc :=
  { entry := DeadLetterQueue.new.mkEntry msg0 "e" DLQErrorType.unknown 0 1000 "b"
    expires_at := 604801000 }

/-- A document whose `expires_at` equals the observation instant 5. -/
def docExp5 : DLQDoc :=
  { entry := DeadLetterQueue.new.mkEntry msg0 "e" DLQErrorType.unknown 5 0 "x"
    expires_at := 5 }

theorem retry_pending_fst_eq_map (q : DeadLetterQueue) (s : List DLQDoc) (now : Nat) :
    (q.retry_pending_messages s now).1
      = s.map (fun d => if dlqDue q now d then dlqClaim now d else d) := by
  induction s with
  | nil => rfl
  | cons d rest ih =>
    simp only [DeadLetterQueue.retry_pending_messages, List.map_cons]
    split <;> simp [ih]

theorem retry_pending_snd_eq_filter_length (q : DeadLetterQueue) (s : List DLQDoc)
    (now : Nat) :
    (q.retry_pending_messages s now).2 = (s.filter (dlqDue q now)).length := by
  induction s with
  | nil => rfl
  | cons d rest ih =>
    simp only [DeadLetterQueue.retry_pending_messages, List.filter_cons]
    split <;> simp [ih]

theorem dlqDue_iff (q : DeadLetterQueue) (now : Nat) (d : DLQDoc) :
    dlqDue q now d = true ↔
      (d.entry.status = DLQStatus.pending
        ∧ (∃ t, d.entry.next_retry_at = some t ∧ t ≤ now)
        ∧ d.entry.retry_count < q.max_retries) := by
  cases h : d.entry.next_retry_at with
  | none => simp [dlqDue, h]
  | some t => simp [dlqDue, h, and_assoc, beq_iff_eq]

theorem mem_insertByCreatedDesc (e a : DeadLetterQueueEntry)
    (l : List DeadLetterQueueEntry) :
    a ∈ insertByCreatedDesc e l ↔ a = e ∨ a ∈ l := by
  induction l with
  | nil => simp [insertByCreatedDesc]
  | cons x xs ih =>
    simp only [insertByCreatedDesc]
    split
    · simp [List.mem_cons]
    · simp [List.mem_cons, ih]
      tauto

theorem mem_sortByCreatedDesc (a : DeadLetterQueueEntry)
    (l : List DeadLetterQueueEntry) :
    a ∈ sortByCreatedDesc l ↔ a ∈ l := by
  induction l with
  | nil => simp [sortByCreatedDesc]
  | cons x xs ih => simp [sortByCreatedDesc, mem_insertByCreatedDesc, ih]

theorem length_filter_not_add_length_filter {α : Type} (l : List α) (p : α → Bool) :
    (l.filter (fun a => !(p a))).length + (l.filter p).length = l.length := by
  induction l with
  | nil => rfl
  | cons d rest ih =>
    by_cases h : p d <;> simp [List.filter_cons, h] <;> omega

theorem dlqEntryInv_mkEntry (q : DeadLetterQueue) (msg : StoredMessage)
    (err : String) (et : DLQErrorType) (rc now : Nat) (i : String)
    (h : rc ≤ q.max_retries) :
    dlqEntryInv (q.mkEntry msg err et rc now i) := by
  rcases Nat.lt_or_ge rc q.max_retries with hlt | hge
  · exact ⟨h, by simp [DeadLetterQueue.mkEntry, hlt],
      by simp [DeadLetterQueue.mkEntry, hlt, Nat.not_le.mpr hlt],
      by simp [DeadLetterQueue.mkEntry, hlt]⟩
  · have hnot : ¬ rc < q.max_retries := Nat.not_lt.mpr hge
    exact ⟨h, by simp [DeadLetterQueue.mkEntry, hnot],
      by simp [DeadLetterQueue.mkEntry, hnot, hge],
      by simp [DeadLetterQueue.mkEntry, hnot]⟩

theorem dlqEntryInv_dlqClaim (now : Nat) (d : DLQDoc)
    (hinv : dlqEntryInv d.entry) (hp : d.entry.status = DLQStatus.pending) :
    dlqEntryInv (dlqClaim now d).entry := by
  obtain ⟨h1, _, h3, h4⟩ := hinv
  have hrc : d.entry.retry_count < d.entry.max_retries := by
    by_contra hge
    have hf := h3.mpr ⟨Nat.le_of_not_lt hge, by simp [hp]⟩
    simp [hp] at hf
  refine ⟨h1, ?_, ?_, ?_⟩
  · simp [dlqClaim]
  · simp [dlqClaim]
    omega
  · simpa [dlqClaim] using h4

theorem dlqEntryInv_set_resolved (e : DeadLetterQueueEntry) (now : Nat)
    (r : Option String) (h : dlqEntryInv e) :
    dlqEntryInv { e with status := DLQStatus.resolved
                         resolved_at := some now
                         resolved_reason := r } := by
  obtain ⟨h1, _, _, h4⟩ := h
  exact ⟨h1, by simp, by simp, h4⟩

theorem mark_resolved_mem_inv (s : List DLQDoc) (i : String) (r : Option String)
    (now : Nat) (hs : ∀ d ∈ s, dlqEntryInv d.entry) :
    ∀ d ∈ DeadLetterQueue.mark_resolved s i r now, dlqEntryInv d.entry := by
  induction s with
  | nil => intro d hd; simp [DeadLetterQueue.mark_resolved] at hd
  | cons x rest ih =>
    intro d hd
    simp only [DeadLetterQueue.mark_resolved] at hd
    split at hd
    · rcases List.mem_cons.mp hd with rfl | hmem
      · exact dlqEntryInv_set_resolved x.entry now r (hs x (List.mem_cons_self x rest))
      · exact hs d (List.mem_cons_of_mem x hmem)
    · rcases List.mem_cons.mp hd with rfl | hmem
      · exact hs d (List.mem_cons_self d rest)
      · exact ih (fun y hy => hs y (List.mem_cons_of_mem x hy)) d hmem

theorem backoff_small_eq (r : Nat) (hr : r < 2 ^ 31) :
    DeadLetterQueue.new.calculate_backoff r = min (100 * 2 ^ r) 300000 := by
  have hmod : r % 2 ^ 32 = r := Nat.mod_eq_of_lt (lt_trans hr (by norm_num))
  unfold DeadLetterQueue.calculate_backoff
  rw [hmod, if_pos hr]
  rfl

/-- Claim C5 (amended): for every retry_count below 2^31 — the values on
which the u32 to i32 cast of the source is value-preserving, and in
particular the only values the pipeline produces — the backoff equals
min (100 * 2 ^ r) 300000 milliseconds and is non-decreasing; the 300000
ms cap is never exceeded for any retry_count; but for retry_count in
[2^31, 2^32) the cast wraps to a negative exponent and the code returns
the truncated quotient 100 / 2 ^ (2^32 - r) instead, so the stated
formula and the monotonicity fail on that region. -/
theorem c5_backoff_wrapped_formula :
    (∀ r : Nat, r < 2 ^ 31 →
        DeadLetterQueue.new.calculate_backoff r = min (100 * 2 ^ r) 300000)
    ∧ (∀ r s : Nat, r ≤ s → s < 2 ^ 31 →
        DeadLetterQueue.new.calculate_backoff r
          ≤ DeadLetterQueue.new.calculate_backoff s)
    ∧ (∀ r : Nat, DeadLetterQueue.new.calculate_backoff r ≤ 300000)
    ∧ (∀ r : Nat, 2 ^ 31 ≤ r → r < 2 ^ 32 →
        DeadLetterQueue.new.calculate_backoff r = 100 / 2 ^ (2 ^ 32 - r)) := by
  refine ⟨backoff_small_eq, fun r s hrs hs => ?_, fun r => ?_, fun r h1 h2 => ?_⟩
  · rw [backoff_small_eq r (lt_of_le_of_lt hrs hs), backoff_small_eq s hs]
    exact min_le_min
      (Nat.mul_le_mul_left _ (Nat.pow_le_pow_right (by norm_num) hrs)) le_rfl
  · unfold DeadLetterQueue.calculate_backoff
    split
    · exact min_le_right _ _
    · exact min_le_right _ _
  · have hmod : r % 2 ^ 32 = r := Nat.mod_eq_of_lt h2
    unfold DeadLetterQueue.calculate_backoff
    rw [hmod, if_neg (Nat.not_lt.mpr h1)]
    exact min_eq_left (le_trans (Nat.div_le_self _ _) (by decide))

/-- Concrete instances of C5 as amended: the formula and monotonicity at
retry_count 2 and 7 in the value-preserving range, and the wrapped value
2^32 - 1, where the cast yields exponent -1 and the code returns 50. -/
theorem c5_backoff_wrapped_witness :
    DeadLetterQueue.new.calculate_backoff 2 = min (100 * 2 ^ 2) 300000
    ∧ DeadLetterQueue.new.calculate_backoff 2
        ≤ DeadLetterQueue.new.calculate_backoff 7
    ∧ DeadLetterQueue.new.calculate_backoff (2 ^ 32 - 1) = 50 :=
  ⟨c5_backoff_wrapped_formula.1 2 (by norm_num),
   c5_backoff_wrapped_formula.2.1 2 7 (by norm_num) (by norm_num),
   by
     have h := c5_backoff_wrapped_formula.2.2.2 (2 ^ 32 - 1) (by norm_num) (by norm_num)
     rw [h]
     norm_num⟩

/-- Concrete refutation of C5 as stated: at retry_count 2^31 the u32 to
i32 cast wraps, the code returns 0 while the claimed formula gives
300000, and the backoff at 2^31 - 1 (which is 300000) exceeds the
backoff at 2^31, refuting monotonicity. -/
theorem c5_counterexample_wrap :
    DeadLetterQueue.new.calculate_backoff (2 ^ 31) = 0
    ∧ DeadLetterQueue.new.calculate_backoff (2 ^ 31 - 1) = 300000
    ∧ min (100 * 2 ^ (2 ^ 31 : Nat)) 300000 = 300000
    ∧ ¬ DeadLetterQueue.new.calculate_backoff (2 ^ 31 - 1)
        ≤ DeadLetterQueue.new.calculate_backoff (2 ^ 31) := by
  have e0 : DeadLetterQueue.new.calculate_backoff (2 ^ 31) = 0 := by
    have hmod : (2 ^ 31 : Nat) % 2 ^ 32 = 2 ^ 31 := Nat.mod_eq_of_lt (by norm_num)
    unfold DeadLetterQueue.calculate_backoff
    rw [hmod, if_neg (by norm_num)]
    have hdiv : DeadLetterQueue.new.retry_backoff_base_ms
        / DeadLetterQueue.new.retry_backoff_multiplier ^ (2 ^ 32 - 2 ^ 31) = 0 :=
      Nat.div_eq_of_lt (lt_of_lt_of_le
        (by decide : DeadLetterQueue.new.retry_backoff_base_ms
          < DeadLetterQueue.new.retry_backoff_multiplier ^ 7)
        (Nat.pow_le_pow_right (by decide) (by norm_num)))
    rw [hdiv]
    simp
  have e1 : DeadLetterQueue.new.calculate_backoff (2 ^ 31 - 1) = 300000 := by
    rw [backoff_small_eq (2 ^ 31 - 1) (by norm_num)]
    exact min_eq_right (le_trans (by norm_num : (300000 : Nat) ≤ 100 * 2 ^ 12)
      (Nat.mul_le_mul_left _ (Nat.pow_le_pow_right (by norm_num) (by norm_num))))
  have e2 : min (100 * 2 ^ (2 ^ 31 : Nat)) 300000 = 300000 :=
    min_eq_right (le_trans (by norm_num : (300000 : Nat) ≤ 100 * 2 ^ 12)
      (Nat.mul_le_mul_left _ (Nat.pow_le_pow_right (by norm_num) (by norm_num))))
  refine ⟨e0, e1, e2, ?_⟩
  rw [e0, e1]
  norm_num

/-- Claim C3: every add call appends exactly one document; with
retry_count equal to max_retries the created entry is Failed with no
next_retry_at; with retry_count below max_retries it is Pending with
next_retry_at exactly now plus the backoff, strictly in the future; and
the attached expires_at is now plus 7 days in every case. -/
theorem c3_add_exhaustion_ttl (s : List DLQDoc) (msg : StoredMessage)
    (err : String) (et : DLQErrorType) (rc now : Nat) (i : String) :
    ((DeadLetterQueue.new.add s msg err et rc now i).1 =
        s ++ [{ entry := DeadLetterQueue.new.mkEntry msg err et rc now i
                expires_at := now + 7 * msPerDay }])
    ∧ (rc = DeadLetterQueue.new.max_retries →
        (DeadLetterQueue.new.mkEntry msg err et rc now i).status = DLQStatus.failed
        ∧ (DeadLetterQueue.new.mkEntry msg err et rc now i).next_retry_at = none)
    ∧ (rc < DeadLetterQueue.new.max_retries →
        (DeadLetterQueue.new.mkEntry msg err et rc now i).status = DLQStatus.pending
        ∧ (DeadLetterQueue.new.mkEntry msg err et rc now i).next_retry_at
            = some (now + DeadLetterQueue.new.calculate_backoff rc)
        ∧ now < now + DeadLetterQueue.new.calculate_backoff rc) := by
  refine ⟨rfl, fun h => ?_, fun h => ?_⟩
  · have hnot : ¬ rc < DeadLetterQueue.new.max_retries := by
      rw [h]
      exact lt_irrefl _
    exact ⟨by simp [DeadLetterQueue.mkEntry, hnot], by simp [DeadLetterQueue.mkEntry, hnot]⟩
  · have h5 : rc < 5 := h
    have hpos : 0 < DeadLetterQueue.new.calculate_backoff rc := by
      rw [backoff_small_eq rc (lt_trans h5 (by norm_num))]
      exact lt_min_iff.mpr
        ⟨Nat.mul_pos (by norm_num) (pow_pos (by norm_num) rc), by norm_num⟩
    exact ⟨by simp [DeadLetterQueue.mkEntry, h], by simp [DeadLetterQueue.mkEntry, h],
      Nat.lt_add_of_pos_right hpos⟩

/-- Concrete instances of the two conditional clauses of C3, at
retry_count 5 (exhausted) and 3 (retries remaining). -/
theorem c3_add_witness :
    ((DeadLetterQueue.new.mkEntry msg0 "e" DLQErrorType.unknown 5 0 "i").status
        = DLQStatus.failed)
    ∧ ((DeadLetterQueue.new.mkEntry msg0 "e" DLQErrorType.unknown 3 0 "i").status
        = DLQStatus.pending) :=
  ⟨((c3_add_exhaustion_ttl [] msg0 "e" DLQErrorType.unknown 5 0 "i").2.1 rfl).1,
   ((c3_add_exhaustion_ttl [] msg0 "e" DLQErrorType.unknown 3 0 "i").2.2 (by decide)).1⟩

/-- Claim C4: the sweep updates exactly the documents that are pending,
due and below the retry bound, setting status retrying and last_retry_at
now; it leaves every other document unchanged and returns the number of
documents it transitioned; and in the concrete two-document scenario with
one due and one not-yet-due pending entry, only the due one transitions
and the count is 1. -/
theorem c4_retry_pending_correct (q : DeadLetterQueue) (s : List DLQDoc) (now : Nat) :
    ((q.retry_pending_messages s now).1
        = s.map (fun d => if dlqDue q now d then dlqClaim now d else d))
    ∧ ((q.retry_pending_messages s now).2 = (s.filter (dlqDue q now)).length)
    ∧ (∀ d, dlqDue q now d = true ↔
        (d.entry.status = DLQStatus.pending
          ∧ (∃ t, d.entry.next_retry_at = some t ∧ t ≤ now)
          ∧ d.entry.retry_count < q.max_retries))
    ∧ (DeadLetterQueue.new.retry_pending_messages [dueDoc, lateDoc] 150
        = ([dlqClaim 150 dueDoc, lateDoc], 1)) :=
  ⟨retry_pending_fst_eq_map q s now, retry_pending_snd_eq_filter_length q s now,
   dlqDue_iff q now, by decide⟩

/-- Claim C2 (amended): every collection state reachable through add calls
whose retry_count argument is at most the configured maximum, the sweep,
and mark_resolved satisfies, on every document: retry_count at most
max_retries; status in the closed four-value set; status Failed exactly
when retries are exhausted and the entry is not Resolved; and
next_retry_at present exactly when retry_count is below max_retries. -/
theorem c2_reachable_invariant (q : DeadLetterQueue) (s : List DLQDoc)
    (h : DLQReachable q s) : ∀ d ∈ s, dlqEntryInv d.entry := by
  induction h with
  | nil => intro d hd; simp at hd
  | add s msg err et rc now i hreach hrc ih =>
    intro d hd
    simp only [DeadLetterQueue.add, List.mem_append, List.mem_singleton] at hd
    rcases hd with hd | rfl
    · exact ih d hd
    · exact dlqEntryInv_mkEntry q msg err et rc now i hrc
  | retry s now hreach ih =>
    intro d hd
    rw [retry_pending_fst_eq_map] at hd
    rcases List.mem_map.mp hd with ⟨x, hx, rfl⟩
    by_cases hdue : dlqDue q now x
    · rw [if_pos hdue]
      exact dlqEntryInv_dlqClaim now x (ih x hx) ((dlqDue_iff q now x).mp hdue).1
    · rw [if_neg hdue]
      exact ih x hx
  | resolve s i reason now hreach ih =>
    exact mark_resolved_mem_inv s i reason now ih

/-- Concrete instance of C2 as amended: the invariant holds on the entry
of the document created by one restricted add on the empty collection. -/
theorem c2_reachable_invariant_witness :
    dlqEntryInv (DeadLetterQueue.new.mkEntry msg0 "e" DLQErrorType.unknown 3 0 "i") :=
  c2_reachable_invariant DeadLetterQueue.new _
    (DLQReachable.add [] msg0 "e" DLQErrorType.unknown 3 0 "i"
      DLQReachable.nil (by decide))
    { entry := DeadLetterQueue.new.mkEntry msg0 "e" DLQErrorType.unknown 3 0 "i"
      expires_at := 0 + DeadLetterQueue.new.dlq_ttl_days * msPerDay }
    (by simp [DeadLetterQueue.add])

/-- Concrete refutation of C2 as stated: add with retry_count argument 6
creates an entry whose retry_count exceeds its max_retries 5, and a swept
due entry keeps its next_retry_at while its status is Retrying. -/
theorem c2_counterexample :
    (∃ d ∈ (DeadLetterQueue.new.add [] msg0 "e" DLQErrorType.unknown 6 0 "i").1,
        ¬ d.entry.retry_count ≤ d.entry.max_retries)
    ∧ (∃ d ∈ (DeadLetterQueue.new.retry_pending_messages
          (DeadLetterQueue.new.add [] msg0 "e" DLQErrorType.unknown 0 0 "i").1 100).1,
        d.entry.status = DLQStatus.retrying ∧ d.entry.next_retry_at.isSome) := by
  decide

theorem mark_resolved_length (s : List DLQDoc) (i : String) (r : Option String)
    (now : Nat) :
    (DeadLetterQueue.mark_resolved s i r now).length = s.length := by
  induction s with
  | nil => rfl
  | cons x rest ih =>
    simp only [DeadLetterQueue.mark_resolved]
    split <;> simp [ih]

theorem mark_resolved_map_id (s : List DLQDoc) (i : String) (r : Option String)
    (now : Nat) :
    (DeadLetterQueue.mark_resolved s i r now).map (fun d => d.entry.id)
      = s.map (fun d => d.entry.id) := by
  induction s with
  | nil => rfl
  | cons x rest ih =>
    simp only [DeadLetterQueue.mark_resolved]
    split <;> simp [ih]

/-- Claim C6 (amended): the cleanup pass deletes exactly the documents
whose expires_at is strictly before now (regardless of status), the
number of kept documents plus the returned count is the collection size,
every entry returned by a subsequent get_entries_by_status query comes
from a kept document whose expires_at is not strictly before now, and the
other mutating store operations delete nothing: add keeps every existing
document, and the sweep and mark_resolved preserve the length and the
document ids. -/
theorem c6_cleanup_expired_correct (s : List DLQDoc) (now : Nat) :
    (∀ d, d ∈ (DeadLetterQueue.cleanup_expired s now).1
        ↔ (d ∈ s ∧ ¬ d.expires_at < now))
    ∧ ((DeadLetterQueue.cleanup_expired s now).1.length
        + (DeadLetterQueue.cleanup_expired s now).2 = s.length)
    ∧ (∀ status lim e,
        e ∈ DeadLetterQueue.get_entries_by_status
            (DeadLetterQueue.cleanup_expired s now).1 status lim →
        ∃ d, d ∈ (DeadLetterQueue.cleanup_expired s now).1
          ∧ d.entry = e ∧ ¬ d.expires_at < now)
    ∧ (∀ q msg err et rc i, ∀ d ∈ s, d ∈ (DeadLetterQueue.add q s msg err et rc now i).1)
    ∧ (∀ q : DeadLetterQueue, (q.retry_pending_messages s now).1.length = s.length
        ∧ (q.retry_pending_messages s now).1.map (fun d => d.entry.id)
            = s.map (fun d => d.entry.id))
    ∧ (∀ i r, (DeadLetterQueue.mark_resolved s i r now).length = s.length
        ∧ (DeadLetterQueue.mark_resolved s i r now).map (fun d => d.entry.id)
            = s.map (fun d => d.entry.id)) := by
  refine ⟨?_, ?_, ?_, ?_, ?_, ?_⟩
  · intro d
    simp [DeadLetterQueue.cleanup_expired, List.mem_filter]
  · exact length_filter_not_add_length_filter s (fun d => decide (d.expires_at < now))
  · intro status lim e he
    have hs : e ∈ sortByCreatedDesc
        (((DeadLetterQueue.cleanup_expired s now).1.filter
          (fun d => d.entry.status == status)).map (fun d => d.entry)) := by
      cases lim with
      | none => exact he
      | some l => exact List.take_subset l _ he
    rw [mem_sortByCreatedDesc] at hs
    rcases List.mem_map.mp hs with ⟨d, hd, rfl⟩
    have h1 : d ∈ (DeadLetterQueue.cleanup_expired s now).1 := (List.mem_filter.mp hd).1
    have h1f : d ∈ s.filter (fun d => !decide (d.expires_at < now)) := h1
    have h2 := (List.mem_filter.mp h1f).2
    refine ⟨d, h1, rfl, ?_⟩
    simpa using h2
  · intro q msg err et rc i d hd
    simp only [DeadLetterQueue.add, List.mem_append]
    exact Or.inl hd
  · intro q
    constructor
    · rw [retry_pending_fst_eq_map]
      simp
    · rw [retry_pending_fst_eq_map, List.map_map]
      refine List.map_congr_left (fun d _ => ?_)
      by_cases h : dlqDue q now d <;> simp [h, dlqClaim]
  · intro i r
    exact ⟨mark_resolved_length s i r now, mark_resolved_map_id s i r now⟩

/-- Concrete instance of C6 as amended: in a one-document collection
whose document is unexpired at instant 0, the filtered status query after
a cleanup pass returns only entries of kept, unexpired documents. -/
theorem c6_cleanup_witness :
    ∃ d, d ∈ (DeadLetterQueue.cleanup_expired [dueDoc] 0).1
      ∧ d.entry = dueDoc.entry ∧ ¬ d.expires_at < 0 :=
  (c6_cleanup_expired_correct [dueDoc] 0).2.2.1 DLQStatus.pending none dueDoc.entry
    (by decide)

/-- Concrete refutation of C6 as stated: a document whose expires_at
equals now (5) survives the cleanup pass and is not counted, because the
deletion filter is strict. -/
theorem c6_counterexample :
    docExp5.expires_at ≤ 5
    ∧ (DeadLetterQueue.cleanup_expired [docExp5] 5).1 = [docExp5]
    ∧ (DeadLetterQueue.cleanup_expired [docExp5] 5).2 = 0 :=
  ⟨by decide, rfl, rfl⟩

/-- Claim C1 (amended): when the broker produces six consecutive failure
outcomes (an initial attempt and the five retries the loop allows), the
publisher stops, exactly one dead-letter document is appended, carrying
retry_count 5, max_retries 5, status Failed, error_type
BrokerPublishFailed and no next_retry_at, and the publisher terminates
with the delivery failure. -/
theorem c1_six_failures_dead_letter (d : EventData) (cid : String)
    (store : List DLQDoc) (now : Nat) (i : String) (statusText : String) :
    publish_agent_event_with_retry d cid store now i
        (List.replicate 6 (AttemptOutcome.httpError statusText))
      = some (PublishOutcome.deliveryFailed
                ("Broker returned error status: " ++ statusText),
          store ++ [{ entry := { id := some i,
                                 message := message_for_dlq d cid now,
                                 error := "Broker returned error status: "
                                   ++ statusText,
                                 error_type := DLQErrorType.brokerPublishFailed,
                                 retry_count := 5,
                                 max_retries := 5,
                                 next_retry_at := none,
                                 created_at := now,
                                 last_retry_at := none,
                                 status := DLQStatus.failed,
                                 resolved_at := none,
                                 resolved_reason := none },
                      expires_at := now + 7 * msPerDay }]) := rfl

/-- Concrete refutation of C1 as stated: after exactly five consecutive
broker failures the publisher has not stopped and has created no
dead-letter entry; it makes a sixth attempt, and when that succeeds it
terminates with Ok and the dead-letter collection is untouched. -/
theorem c1_counterexample_five_failures :
    publish_agent_event_with_retry data0 "c1" [] 0 "d1"
        (List.replicate 5 (AttemptOutcome.httpError "500 Internal Server Error")
          ++ [AttemptOutcome.success])
      = some (PublishOutcome.ok, []) := rfl

theorem contains_false_not_mem {l : List String} {k : String}
    (h : l.contains k = false) : k ∉ l := fun hm => by
  have h2 : l.contains k = true := List.elem_iff.mpr hm
  rw [h2] at h
  exact Bool.noConfusion h

theorem handle_event_state_unchanged (st : GatewayState) (ev : InEvent)
    (f : String) : (handle_event st ev f).1 = st := by
  rcases ev with ⟨ty, data⟩
  by_cases hty : ty = "messaging.message.received"
  · cases data with
    | none => simp [handle_event, hty]
    | some d =>
      cases hk : d.idempotency_key with
      | none => simp [handle_event, hty, hk]
      | some k =>
        cases hc : st.idempotency_keys.contains k with
        | true => simp [handle_event, hty, hk, List.elem_iff.mp hc]
        | false =>
          cases hcid : d.conversation_id with
          | none => simp [handle_event, hty, hk, contains_false_not_mem hc, hcid]
          | some cid => simp [handle_event, hty, hk, contains_false_not_mem hc, hcid]
  · simp [handle_event, hty]

/-- Claim C7 (amended): whenever the handler dispatches a publish, the
constructed outbound event carries the supplied fresh id, the configured
broker URL as its source (the delivery target, not this service's own
address), the type tag agent.message, and the inbound event's data,
unchanged. -/
theorem c7_outbound_event_shape (st : GatewayState) (ev : InEvent)
    (f : String) (d : EventData) (k cid : String)
    (hty : ev.ty = "messaging.message.received")
    (hd : ev.data = some d)
    (hk : d.idempotency_key = some k)
    (hfresh : st.idempotency_keys.contains k = false)
    (hcid : d.conversation_id = some cid) :
    (handle_event st ev f).2.2 =
      some ({ id := f, source := st.broker_url, ty := "agent.message", data := d },
        cid) := by
  simp [handle_event, hty, hd, hk, contains_false_not_mem hfresh, hcid]

/-- Concrete instance of C7 as amended: dispatch on a fresh event in the
default configuration. -/
theorem c7_outbound_event_witness :
    (handle_event st0 ev0 "e1").2.2 =
      some ({ id := "e1"
              source := "http://default-broker.homelab-services.svc.cluster.local"
              ty := "agent.message"
              data := data0 }, "c1") :=
  c7_outbound_event_shape st0 ev0 "e1" data0 "k1" "c1" rfl rfl rfl rfl rfl

/-- Concrete refutation of C7 as stated: the outbound event's source is
the configured broker URL, which is not this service's own listen
address. -/
theorem c7_counterexample_source_is_broker :
    ((handle_event st0 ev0 "e1").2.2.map (fun p => p.1.source)
        = some st0.broker_url)
    ∧ st0.broker_url ≠ service_listen_addr :=
  ⟨rfl, by decide⟩

/-- Claim C8: an inbound event whose idempotency_key already has a stored
record is acknowledged with the success result and dispatches no outbound
publish. -/
theorem c8_duplicate_ack_no_dispatch (st : GatewayState) (ev : InEvent)
    (f : String) (d : EventData) (k : String)
    (hd : ev.data = some d) (hk : d.idempotency_key = some k)
    (hmem : k ∈ st.idempotency_keys) :
    (handle_event st ev f).2.1 = HandlerResult.okAck
    ∧ (handle_event st ev f).2.2 = none := by
  by_cases hty : ev.ty = "messaging.message.received"
  · exact ⟨by simp [handle_event, hty, hd, hk, hmem],
      by simp [handle_event, hty, hd, hk, hmem]⟩
  · exact ⟨by simp [handle_event, hty], by simp [handle_event, hty]⟩

/-- Concrete instance of C8: the event with key k1 against a state
already holding an idempotency record for k1. -/
theorem c8_duplicate_witness :
    (handle_event st1 ev0 "e2").2.1 = HandlerResult.okAck
    ∧ (handle_event st1 ev0 "e2").2.2 = none :=
  c8_duplicate_ack_no_dispatch st1 ev0 "e2" data0 "k1" rfl rfl (by decide)

/-- Claim C9: routing resolution is a total pure function of the
conversations collection; it returns the stored agent_id of an existing
conversation, the fixed default when that field is absent or malformed,
and the same fixed default when no conversation record exists. -/
theorem c9_resolve_agent_contract (convs : List ConversationDoc) (cid : String) :
    (∀ c a, find_conversation convs cid = some c → c.agent_id = some a →
        resolve_agent convs cid = a)
    ∧ (∀ c, find_conversation convs cid = some c → c.agent_id = none →
        resolve_agent convs cid = "agent-bruno")
    ∧ (find_conversation convs cid = none →
        resolve_agent convs cid = "agent-bruno") := by
  refine ⟨fun c a hc ha => ?_, fun c hc ha => ?_, fun hc => ?_⟩
  · simp [resolve_agent, hc, ha]
  · simp [resolve_agent, hc, ha]
  · simp [resolve_agent, hc]

/-- Concrete instances of C9: a stored agent_id is returned, and an
absent conversation degrades to the default. -/
theorem c9_resolve_agent_witness :
    resolve_agent convs1 "c1" = "agent-x"
    ∧ resolve_agent convs1 "c9" = "agent-bruno" :=
  ⟨(c9_resolve_agent_contract convs1 "c1").1
      { id := "c1", agent_id := some "agent-x" } "agent-x" (by decide) rfl,
   (c9_resolve_agent_contract convs1 "c9").2.2 (by decide)⟩

/-- Claim C10: the ingestion handler performs no write: the gateway state,
and in particular the idempotency-record collection, is returned unchanged
on every path; consequently, absent an external writer, a second event
with the same idempotency_key is again treated as fresh and dispatches a
second publish. -/
theorem c10_handler_no_write_refresh (st : GatewayState) (ev : InEvent)
    (f f2 : String) :
    ((handle_event st ev f).1 = st)
    ∧ ((handle_event st ev f).1.idempotency_keys = st.idempotency_keys)
    ∧ (∀ d k cid, ev.ty = "messaging.message.received" → ev.data = some d →
        d.idempotency_key = some k → st.idempotency_keys.contains k = false →
        d.conversation_id = some cid →
        (handle_event st ev f).2.2 ≠ none
        ∧ (handle_event (handle_event st ev f).1 ev f2).2.2 ≠ none) := by
  refine ⟨handle_event_state_unchanged st ev f,
    by rw [handle_event_state_unchanged], fun d k cid hty hd hk hfresh hcid => ?_⟩
  constructor
  · simp [handle_event, hty, hd, hk, contains_false_not_mem hfresh, hcid]
  · rw [handle_event_state_unchanged]
    simp [handle_event, hty, hd, hk, contains_false_not_mem hfresh, hcid]

/-- Concrete instance of C10: processing the same fresh event twice
leaves the state equal and dispatches a publish both times. -/
theorem c10_handler_witness :
    ((handle_event st0 ev0 "e1").1 = st0)
    ∧ (handle_event st0 ev0 "e1").2.2 ≠ none
    ∧ (handle_event (handle_event st0 ev0 "e1").1 ev0 "e2").2.2 ≠ none := by
  have h := c10_handler_no_write_refresh st0 ev0 "e1" "e2"
  have h2 := h.2.2 data0 "k1" "c1" rfl rfl rfl rfl rfl
  exact ⟨h.1, h2.1, h2.2⟩
